import Mathlib

/-!
BasicLogger: a shallow embedding of `include/BasicLogger/BasicLogger.hpp`.

The header defines one class, `BasicLogger`, with an `init` routine, eight logging entry points
(`log`, `info`, `warn`, `error`, each with and without a call-site) and two `assert` overloads.

Modelling decisions.

* The three build-time switches (`BASIC_LOGGER_ENABLE_CONSOLE`, `BASIC_LOGGER_ENABLE_FILE`,
  `BASIC_LOGGER_ENABLE_MULTITHREADING`) and the logging folder macro are fields of `Config`;
  an `#ifdef` block becomes an `if` on the corresponding field.
* The template parameter `T` of a message is represented by the text that `operator<<` produces
  for it, a `String`.
* The wall clock is an input: every logging function receives the local time of day that
  `std::chrono::system_clock::now()` would have returned (`LocalTime`).
* `std::cout` and the static `logFile` stream are fields of `World`; a call maps a `World` to the
  `World` after the call. A run is sequential, so taking and releasing `logMutex` leaves no trace.
* `int` is `Int`; `operator<<(int)` with default flags prints it in decimal.
-/

namespace BasicLogger

/-! ## Characters and library formatting -/

/-- The escape character, written `\033` in the source. -/
def ESC : Char := Char.ofNat 27

/-- The line feed that `std::endl` inserts. -/
def LF : Char := Char.ofNat 10

/-- Decimal text of an `int` as `operator<<` prints it with default flags: the digits, with a
leading minus sign for a negative number. -/
def renderInt : Int → String
  | Int.ofNat n => String.mk (Nat.toDigits 10 n)
  | Int.negSucc n => "-" ++ String.mk (Nat.toDigits 10 (n + 1))

/-- The fields of the zoned local time that the format string of the logger reads. -/
structure LocalTime where
  hour : Fin 24
  minute : Fin 60
deriving DecidableEq, Repr

/-- A number below one hundred as two decimal digits, zero padded. -/
def twoDigits (n : Nat) : String :=
  String.mk [Nat.digitChar (n / 10), Nat.digitChar (n % 10)]

/-- The hour of a twelve hour clock (`%I`): 1 to 12. -/
def hour12 (h : Nat) : Nat := if h % 12 = 0 then 12 else h % 12

/-- The designation `%p` in the "C" locale. -/
def meridiem (h : Nat) : String := if h < 12 then "AM" else "PM"

/-- Result of `std::format` with the pattern `%I:%M %p` on a zoned time: the two digit hour of
the twelve hour clock, a colon, the two digit minute, a blank and AM or PM. -/
def formatTime (now : LocalTime) : String :=
  twoDigits (hour12 now.hour.val) ++ ":" ++ twoDigits now.minute.val ++ " " ++ meridiem now.hour.val

/-! ## Configuration and world -/

/-- Build-time options of the header. -/
structure Config where
  /-- `BASIC_LOGGER_ENABLE_CONSOLE` is defined. -/
  enableConsole : Bool
  /-- `BASIC_LOGGER_ENABLE_FILE` is defined. -/
  enableFile : Bool
  /-- `BASIC_LOGGER_ENABLE_MULTITHREADING` is defined. -/
  enableMultithreading : Bool
  /-- `BASIC_LOGGER_LOGGING_FOLDER`. -/
  loggingFolder : String
deriving DecidableEq, Repr

/-- The static `std::ofstream logFile`. -/
structure OFStream where
  /-- The stream is associated with an open file. -/
  isOpen : Bool
  /-- Path the stream was opened on. -/
  path : String
  /-- One of `failbit`, `badbit` is set: insertions are dropped. -/
  failed : Bool
  /-- Characters that reached the file since it was opened. -/
  contents : String
deriving DecidableEq, Repr

/-- Everything a call can observe or change. -/
structure World where
  /-- Characters written to standard output so far. -/
  stdout : String
  /-- Paths that are directories. -/
  directories : List String
  /-- Paths that exist and are not directories. -/
  files : List String
  /-- The static log file stream. -/
  logFile : OFStream
deriving DecidableEq, Repr

/-- A stream that was never opened. -/
def OFStream.closed : OFStream :=
  { isOpen := false, path := "", failed := false, contents := "" }

/-- A world with nothing on the console, an empty file system and a closed log file stream. -/
def World.empty : World :=
  { stdout := "", directories := [], files := [], logFile := OFStream.closed }

/-- The statement `std::cout << text << std::endl`. -/
def coutLine (w : World) (text : String) : World :=
  { w with stdout := w.stdout ++ text ++ String.singleton LF }

/-- Insertion of `text` and `std::endl` into an `std::ofstream`: on a stream in a failed state
nothing happens, on a stream without an open file the insertion fails and the state becomes
failed, otherwise the characters and the line feed reach the file (`std::endl` flushes). -/
def OFStream.putLine (s : OFStream) (text : String) : OFStream :=
  if s.failed then s
  else if s.isOpen then { s with contents := s.contents ++ text ++ String.singleton LF }
  else { s with failed := true }

/-- The statement `logFile << text << std::endl`. -/
def logFileLine (w : World) (text : String) : World :=
  { w with logFile := w.logFile.putLine text }

/-- The log file stream accepts insertions: it is open and not in a failed state. -/
def OFStream.usable (s : OFStream) : Bool := s.isOpen && !s.failed

/-! ## The logging entry points -/

/-- The string `consoleMessageStr` built by `log(const T&)`. -/
def logConsoleMessage (formattedTime : String) (message : String) :
    String :=
  "\x1b[38;5;241m[\x1b[38;5;87m"
    ++ formattedTime
    ++ "\x1b[38;5;241m] \x1b[38;5;249m: "
    ++ message
    ++ "\x1b[0m"

/-- The string `fileMessageStr` built by `log(const T&)`. -/
def logFileMessage (formattedTime : String) (message : String) :
    String :=
  "["
    ++ formattedTime
    ++ "] : "
    ++ message

/-- The entry point `log(const T&)`: logs a message without severity. -/
def log (cfg : Config) (now : LocalTime) (message : String)
    (w : World) : World :=
  let formattedTime := formatTime now
  let w1 := if cfg.enableConsole then coutLine w (logConsoleMessage formattedTime message) else w
  if cfg.enableFile then logFileLine w1 (logFileMessage formattedTime message) else w1

/-- The string `consoleMessageStr` built by `log(int, std::string_view, const T&)`. -/
def logAtConsoleMessage (formattedTime : String) (lineNumber : Int) (filename : String) (message : String) :
    String :=
  "\x1b[38;5;241m[\x1b[38;5;87m"
    ++ formattedTime
    ++ "\x1b[38;5;241m] \x1b[38;5;241m[\x1b[38;5;85m"
    ++ filename
    ++ "\x1b[38;5;241m:\x1b[38;5;86m"
    ++ renderInt lineNumber
    ++ "\x1b[38;5;241m] \x1b[38;5;249m: "
    ++ message
    ++ "\x1b[0m"

/-- The string `fileMessageStr` built by `log(int, std::string_view, const T&)`. -/
def logAtFileMessage (formattedTime : String) (lineNumber : Int) (filename : String) (message : String) :
    String :=
  "["
    ++ formattedTime
    ++ "] ["
    ++ filename
    ++ ":"
    ++ renderInt lineNumber
    ++ "] : "
    ++ message

/-- The entry point `log(int, std::string_view, const T&)`: logs a message without severity. -/
def logAt (cfg : Config) (now : LocalTime) (lineNumber : Int) (filename : String) (message : String)
    (w : World) : World :=
  let formattedTime := formatTime now
  let w1 := if cfg.enableConsole then coutLine w (logAtConsoleMessage formattedTime lineNumber filename message) else w
  if cfg.enableFile then logFileLine w1 (logAtFileMessage formattedTime lineNumber filename message) else w1

/-- The string `consoleMessageStr` built by `info(const T&)`. -/
def infoConsoleMessage (formattedTime : String) (message : String) :
    String :=
  "\x1b[38;5;241m[\x1b[38;5;87m"
    ++ formattedTime
    ++ "\x1b[38;5;241m] [\x1b[38;5;116mINFO\x1b[38;5;241m] \x1b[38;5;249m: \x1b[38;5;116m"
    ++ message
    ++ "\x1b[0m"

/-- The string `fileMessageStr` built by `info(const T&)`. -/
def infoFileMessage (formattedTime : String) (message : String) :
    String :=
  "["
    ++ formattedTime
    ++ "] [INFO] : "
    ++ message

/-- The entry point `info(const T&)`: logs a message with info severity. -/
def info (cfg : Config) (now : LocalTime) (message : String)
    (w : World) : World :=
  let formattedTime := formatTime now
  let w1 := if cfg.enableConsole then coutLine w (infoConsoleMessage formattedTime message) else w
  if cfg.enableFile then logFileLine w1 (infoFileMessage formattedTime message) else w1

/-- The string `consoleMessageStr` built by `info(int, std::string_view, const T&)`. -/
def infoAtConsoleMessage (formattedTime : String) (lineNumber : Int) (filename : String) (message : String) :
    String :=
  "\x1b[38;5;241m[\x1b[38;5;87m"
    ++ formattedTime
    ++ "\x1b[38;5;241m] \x1b[38;5;241m[\x1b[38;5;85m"
    ++ filename
    ++ "\x1b[38;5;241m:\x1b[38;5;86m"
    ++ renderInt lineNumber
    ++ "\x1b[38;5;241m] [\x1b[38;5;116mINFO\x1b[38;5;241m] \x1b[38;5;249m: \x1b[38;5;116m"
    ++ message
    ++ "\x1b[0m"

/-- The string `fileMessageStr` built by `info(int, std::string_view, const T&)`. -/
def infoAtFileMessage (formattedTime : String) (lineNumber : Int) (filename : String) (message : String) :
    String :=
  "["
    ++ formattedTime
    ++ "] ["
    ++ filename
    ++ ":"
    ++ renderInt lineNumber
    ++ "] [INFO] : "
    ++ message

/-- The entry point `info(int, std::string_view, const T&)`: logs a message with info severity. -/
def infoAt (cfg : Config) (now : LocalTime) (lineNumber : Int) (filename : String) (message : String)
    (w : World) : World :=
  let formattedTime := formatTime now
  let w1 := if cfg.enableConsole then coutLine w (infoAtConsoleMessage formattedTime lineNumber filename message) else w
  if cfg.enableFile then logFileLine w1 (infoAtFileMessage formattedTime lineNumber filename message) else w1

/-- The string `consoleMessageStr` built by `warn(const T&)`. -/
def warnConsoleMessage (formattedTime : String) (message : String) :
    String :=
  "\x1b[38;5;241m[\x1b[38;5;87m"
    ++ formattedTime
    ++ "\x1b[38;5;241m] [\x1b[38;5;220mWARNING\x1b[38;5;241m] \x1b[38;5;249m: \x1b[38;5;220m"
    ++ message
    ++ "\x1b[0m"

/-- The string `fileMessageStr` built by `warn(const T&)`. -/
def warnFileMessage (formattedTime : String) (message : String) :
    String :=
  "["
    ++ formattedTime
    ++ "] [WARNING] : "
    ++ message

/-- The entry point `warn(const T&)`: logs a message with warning severity. -/
def warn (cfg : Config) (now : LocalTime) (message : String)
    (w : World) : World :=
  let formattedTime := formatTime now
  let w1 := if cfg.enableConsole then coutLine w (warnConsoleMessage formattedTime message) else w
  if cfg.enableFile then logFileLine w1 (warnFileMessage formattedTime message) else w1

/-- The string `consoleMessageStr` built by `warn(int, std::string_view, const T&)`. -/
def warnAtConsoleMessage (formattedTime : String) (lineNumber : Int) (filename : String) (message : String) :
    String :=
  "\x1b[38;5;241m[\x1b[38;5;87m"
    ++ formattedTime
    ++ "\x1b[38;5;241m] \x1b[38;5;241m[\x1b[38;5;85m"
    ++ filename
    ++ "\x1b[38;5;241m:\x1b[38;5;86m"
    ++ renderInt lineNumber
    ++ "\x1b[38;5;241m] [\x1b[38;5;220mWARNING\x1b[38;5;241m] \x1b[38;5;249m: \x1b[38;5;220m"
    ++ message
    ++ "\x1b[0m"

/-- The string `fileMessageStr` built by `warn(int, std::string_view, const T&)`. -/
def warnAtFileMessage (formattedTime : String) (lineNumber : Int) (filename : String) (message : String) :
    String :=
  "["
    ++ formattedTime
    ++ "] ["
    ++ filename
    ++ ":"
    ++ renderInt lineNumber
    ++ "] [WARNING] : "
    ++ message

/-- The entry point `warn(int, std::string_view, const T&)`: logs a message with warning severity. -/
def warnAt (cfg : Config) (now : LocalTime) (lineNumber : Int) (filename : String) (message : String)
    (w : World) : World :=
  let formattedTime := formatTime now
  let w1 := if cfg.enableConsole then coutLine w (warnAtConsoleMessage formattedTime lineNumber filename message) else w
  if cfg.enableFile then logFileLine w1 (warnAtFileMessage formattedTime lineNumber filename message) else w1

/-- The string `consoleMessageStr` built by `error(const T&)`. -/
def errorConsoleMessage (formattedTime : String) (message : String) :
    String :=
  "\x1b[38;5;241m[\x1b[38;5;87m"
    ++ formattedTime
    ++ "\x1b[38;5;241m] [\x1b[38;5;198mERROR\x1b[38;5;241m] \x1b[38;5;249m: \x1b[38;5;198m"
    ++ message
    ++ "\x1b[0m"

/-- The string `fileMessageStr` built by `error(const T&)`. -/
def errorFileMessage (formattedTime : String) (message : String) :
    String :=
  "["
    ++ formattedTime
    ++ "] [ERROR] : "
    ++ message

/-- The entry point `error(const T&)`: logs a message with error severity. -/
def error (cfg : Config) (now : LocalTime) (message : String)
    (w : World) : World :=
  let formattedTime := formatTime now
  let w1 := if cfg.enableConsole then coutLine w (errorConsoleMessage formattedTime message) else w
  if cfg.enableFile then logFileLine w1 (errorFileMessage formattedTime message) else w1

/-- The string `consoleMessageStr` built by `error(int, std::string_view, const T&)`. -/
def errorAtConsoleMessage (formattedTime : String) (lineNumber : Int) (filename : String) (message : String) :
    String :=
  "\x1b[38;5;241m[\x1b[38;5;87m"
    ++ formattedTime
    ++ "\x1b[38;5;241m] \x1b[38;5;241m[\x1b[38;5;85m"
    ++ filename
    ++ "\x1b[38;5;241m:\x1b[38;5;86m"
    ++ renderInt lineNumber
    ++ "\x1b[38;5;241m] [\x1b[38;5;198mERROR\x1b[38;5;241m] \x1b[38;5;249m: \x1b[38;5;198m"
    ++ message
    ++ "\x1b[0m"

/-- The string `fileMessageStr` built by `error(int, std::string_view, const T&)`. -/
def errorAtFileMessage (formattedTime : String) (lineNumber : Int) (filename : String) (message : String) :
    String :=
  "["
    ++ formattedTime
    ++ "] ["
    ++ filename
    ++ ":"
    ++ renderInt lineNumber
    ++ "] [ERROR] : "
    ++ message

/-- The entry point `error(int, std::string_view, const T&)`: logs a message with error severity. -/
def errorAt (cfg : Config) (now : LocalTime) (lineNumber : Int) (filename : String) (message : String)
    (w : World) : World :=
  let formattedTime := formatTime now
  let w1 := if cfg.enableConsole then coutLine w (errorAtConsoleMessage formattedTime lineNumber filename message) else w
  if cfg.enableFile then logFileLine w1 (errorAtFileMessage formattedTime lineNumber filename message) else w1


/-- The overload `assert(bool, const T&)`: logs an error when the assertion does not hold. -/
def assert (cfg : Config) (now : LocalTime) (assertion : Bool) (message : String)
    (w : World) : World :=
  if assertion then w
  else
    let stream := "Assertion Failed - " ++ message
    error cfg now stream w

/-- The overload `assert(bool, int, std::string_view, const T&)`. -/
def assertAt (cfg : Config) (now : LocalTime) (assertion : Bool) (lineNumber : Int)
    (filename : String) (message : String) (w : World) : World :=
  if assertion then w
  else
    let stream := "Assertion Failed - " ++ message
    errorAt cfg now lineNumber filename stream w

/-! ## Initialisation -/

/-- What the environment answers while `init` runs. -/
structure InitEnv where
  /-- Result of `std::format(BASIC_LOGGER_FILE_FORMAT, zoned_time)` at the start of the process. -/
  logFileName : String
  /-- The operating system lets `create_directory` make the folder. -/
  directoryCreatable : Bool
  /-- The operating system lets the stream create or truncate the file. -/
  fileOpenable : Bool
deriving DecidableEq, Repr

/-- The exception `std::filesystem::filesystem_error`, thrown by `create_directory`. -/
inductive InitError where
  | filesystemError (path : String)
deriving DecidableEq, Repr

/-- The query `std::filesystem::is_directory`. -/
def isDirectory (w : World) (p : String) : Bool := w.directories.contains p

/-- The query `std::filesystem::exists`. -/
def pathExists (w : World) (p : String) : Bool := w.directories.contains p || w.files.contains p

/-- The call `std::filesystem::create_directory(p)`: nothing to do for an existing directory, an
error for an existing path of another kind or when the operating system refuses. -/
def createDirectory (env : InitEnv) (w : World) (p : String) : Except InitError World :=
  if w.directories.contains p then Except.ok w
  else if w.files.contains p then Except.error (InitError.filesystemError p)
  else if env.directoryCreatable then Except.ok { w with directories := p :: w.directories }
  else Except.error (InitError.filesystemError p)

/-- The call `logFile.open(p)` with the default mode of an output stream: it fails on a stream
that is already open or when the file cannot be created, and otherwise leaves the stream open on
an empty file with a cleared state. -/
def openLogFile (env : InitEnv) (w : World) (p : String) : World :=
  if w.logFile.isOpen then { w with logFile := { w.logFile with failed := true } }
  else if env.fileOpenable then
    { w with
      files := if w.files.contains p then w.files else p :: w.files
      logFile := { isOpen := true, path := p, failed := false, contents := "" } }
  else { w with logFile := { w.logFile with failed := true } }

/-- The routine `BasicLogger::init`. All of its body sits under `BASIC_LOGGER_ENABLE_FILE`. -/
def init (cfg : Config) (env : InitEnv) (w : World) : Except InitError World :=
  if cfg.enableFile then
    let logFolder := cfg.loggingFolder
    let logFileName := env.logFileName
    match (if !isDirectory w logFolder || !pathExists w logFolder
        then createDirectory env w logFolder else Except.ok w) with
    | Except.error e => Except.error e
    | Except.ok w1 => Except.ok (openLogFile env w1 (logFolder ++ logFileName))
  else Except.ok w

/-! ## The vocabulary of the specification -/

/-- Severity of a record. -/
inductive Severity where
  | plain
  | info
  | warning
  | error
deriving DecidableEq, Repr

/-- Call-site of a record: short file name and line number. -/
structure CallSite where
  filename : String
  lineNumber : Int
deriving DecidableEq, Repr

/-- The operation `emit` of the specification: the entry point of the class that serves a
severity, with or without a call-site. -/
def emit (cfg : Config) (now : LocalTime) (S : Severity) (callSite : Option CallSite)
    (message : String) (w : World) : World :=
  match S, callSite with
  | Severity.plain, none => log cfg now message w
  | Severity.plain, some cs => logAt cfg now cs.lineNumber cs.filename message w
  | Severity.info, none => info cfg now message w
  | Severity.info, some cs => infoAt cfg now cs.lineNumber cs.filename message w
  | Severity.warning, none => warn cfg now message w
  | Severity.warning, some cs => warnAt cfg now cs.lineNumber cs.filename message w
  | Severity.error, none => error cfg now message w
  | Severity.error, some cs => errorAt cfg now cs.lineNumber cs.filename message w

/-- The operation `assertTrue` of the specification: one of the two `assert` overloads. -/
def assertTrue (cfg : Config) (now : LocalTime) (condition : Bool) (callSite : Option CallSite)
    (message : String) (w : World) : World :=
  match callSite with
  | none => assert cfg now condition message w
  | some cs => assertAt cfg now condition cs.lineNumber cs.filename message w

/-- The console rendering that the entry point for a severity and call-site builds. -/
def consoleRendering (S : Severity) (callSite : Option CallSite) (t message : String) : String :=
  match S, callSite with
  | Severity.plain, none => logConsoleMessage t message
  | Severity.plain, some cs => logAtConsoleMessage t cs.lineNumber cs.filename message
  | Severity.info, none => infoConsoleMessage t message
  | Severity.info, some cs => infoAtConsoleMessage t cs.lineNumber cs.filename message
  | Severity.warning, none => warnConsoleMessage t message
  | Severity.warning, some cs => warnAtConsoleMessage t cs.lineNumber cs.filename message
  | Severity.error, none => errorConsoleMessage t message
  | Severity.error, some cs => errorAtConsoleMessage t cs.lineNumber cs.filename message

/-- The file rendering that the entry point for a severity and call-site builds. -/
def fileRendering (S : Severity) (callSite : Option CallSite) (t message : String) : String :=
  match S, callSite with
  | Severity.plain, none => logFileMessage t message
  | Severity.plain, some cs => logAtFileMessage t cs.lineNumber cs.filename message
  | Severity.info, none => infoFileMessage t message
  | Severity.info, some cs => infoAtFileMessage t cs.lineNumber cs.filename message
  | Severity.warning, none => warnFileMessage t message
  | Severity.warning, some cs => warnAtFileMessage t cs.lineNumber cs.filename message
  | Severity.error, none => errorFileMessage t message
  | Severity.error, some cs => errorAtFileMessage t cs.lineNumber cs.filename message

/-- Tag text of a severity in the specification; `Plain` has none. -/
def tagText : Severity → Option String
  | Severity.plain => none
  | Severity.info => some "INFO"
  | Severity.warning => some "WARNING"
  | Severity.error => some "ERROR"

/-- The text a call hands to the console: its rendering and the line feed of `std::endl`. -/
def consoleOutput (cfg : Config) (S : Severity) (callSite : Option CallSite)
    (t message : String) : String :=
  if cfg.enableConsole then consoleRendering S callSite t message ++ String.singleton LF else ""

/-- The text a call gets into the log file: its rendering and the line feed of `std::endl` when
the file sink is compiled in and the stream accepts insertions, nothing otherwise. -/
def fileOutput (cfg : Config) (s : OFStream) (S : Severity) (callSite : Option CallSite)
    (t message : String) : String :=
  if cfg.enableFile && s.usable then fileRendering S callSite t message ++ String.singleton LF
  else ""

/-! ## Colour codes and lines -/

/-- What the scan for colour sequences is holding back: nothing, an escape character, or an
escape character, an opening bracket and the parameter characters read so far. -/
inductive Pending where
  | clear
  | esc
  | params (ps : List Char)
deriving DecidableEq, Repr

/-- The characters that are held back. -/
def Pending.flush : Pending → List Char
  | Pending.clear => []
  | Pending.esc => [ESC]
  | Pending.params ps => ESC :: '[' :: ps

/-- A parameter character of a colour sequence: a decimal digit or a semicolon. -/
def isColourParam (c : Char) : Bool := c.isDigit || c == ';'

/-- Scan that drops every colour sequence, that is the escape character, an opening bracket,
parameter characters and a closing `m`, and keeps every other character, the characters of an
incomplete sequence included. -/
def stripGo : Pending → List Char → List Char
  | p, [] => p.flush
  | p, c :: rest =>
    if c = ESC then p.flush ++ stripGo Pending.esc rest
    else
      match p with
      | Pending.clear => c :: stripGo Pending.clear rest
      | Pending.esc =>
          if c = '[' then stripGo (Pending.params []) rest
          else ESC :: c :: stripGo Pending.clear rest
      | Pending.params ps =>
          if c = 'm' then stripGo Pending.clear rest
          else if isColourParam c then stripGo (Pending.params (ps ++ [c])) rest
          else ESC :: '[' :: (ps ++ c :: stripGo Pending.clear rest)

/-- A text with every colour sequence removed. A text has no colour sequence exactly when this
returns it unchanged. -/
def stripColour (s : String) : String := String.mk (stripGo Pending.clear s.data)

/-- A character that ends a sequence under way without completing it, and is kept. -/
def isBreak (c : Char) : Bool := c != ESC && c != '[' && c != 'm' && !isColourParam c

/-- A character other than the escape character and the line feed. -/
def plainChar (c : Char) : Bool := c != ESC && c != LF

/-- A text that is one line: it ends with a line feed and has no other line feed. -/
def isOneLine (text : String) : Bool :=
  text.data.getLast? == some LF && text.data.count LF == 1

/-- Start of every console rendering, up to the timestamp text. -/
def consoleBeforeTime : String := "\x1b[38;5;241m[\x1b[38;5;87m"

/-- End of the timestamp segment of a console rendering. -/
def consoleAfterTime : String := "\x1b[38;5;241m] "

/-- Call-site segment of a console rendering: empty without a call-site. -/
def consoleCallSiteSegment : Option CallSite → String
  | none => ""
  | some cs =>
      "\x1b[38;5;241m[\x1b[38;5;85m" ++ cs.filename ++ "\x1b[38;5;241m:\x1b[38;5;86m"
        ++ renderInt cs.lineNumber ++ "\x1b[38;5;241m] "

/-- Severity tag, separator and message body of a console rendering. -/
def consoleSeverityPart (S : Severity) (message : String) : String :=
  match S with
  | Severity.plain => "\x1b[38;5;249m: " ++ message ++ "\x1b[0m"
  | Severity.info =>
      "[\x1b[38;5;116mINFO\x1b[38;5;241m] \x1b[38;5;249m: \x1b[38;5;116m" ++ message ++ "\x1b[0m"
  | Severity.warning =>
      "[\x1b[38;5;220mWARNING\x1b[38;5;241m] \x1b[38;5;249m: \x1b[38;5;220m" ++ message
        ++ "\x1b[0m"
  | Severity.error =>
      "[\x1b[38;5;198mERROR\x1b[38;5;241m] \x1b[38;5;249m: \x1b[38;5;198m" ++ message ++ "\x1b[0m"

/-! ## Shared lemmas about the entry points -/

theorem append_empty_right (s : String) : s ++ "" = s := by
  apply String.ext
  simp

theorem emit_unfold (cfg : Config) (now : LocalTime) (S : Severity) (callSite : Option CallSite)
    (message : String) (w : World) :
    emit cfg now S callSite message w =
      (if cfg.enableFile then
        logFileLine
          (if cfg.enableConsole
            then coutLine w (consoleRendering S callSite (formatTime now) message) else w)
          (fileRendering S callSite (formatTime now) message)
      else
        (if cfg.enableConsole
          then coutLine w (consoleRendering S callSite (formatTime now) message) else w)) := by
  cases S <;> cases callSite <;> rfl

theorem emit_stdout (cfg : Config) (now : LocalTime) (S : Severity) (callSite : Option CallSite)
    (message : String) (w : World) :
    (emit cfg now S callSite message w).stdout =
      w.stdout ++ consoleOutput cfg S callSite (formatTime now) message := by
  rw [emit_unfold]
  cases hc : cfg.enableConsole <;> cases hf : cfg.enableFile <;>
    simp [consoleOutput, hc, logFileLine, coutLine, append_empty_right, String.append_assoc]

theorem emit_logFile_contents (cfg : Config) (now : LocalTime) (S : Severity)
    (callSite : Option CallSite) (message : String) (w : World) :
    (emit cfg now S callSite message w).logFile.contents =
      w.logFile.contents ++ fileOutput cfg w.logFile S callSite (formatTime now) message := by
  rw [emit_unfold]
  cases hc : cfg.enableConsole <;> cases hf : cfg.enableFile <;>
    cases hfl : w.logFile.failed <;> cases ho : w.logFile.isOpen <;>
    simp [fileOutput, hf, hfl, ho, logFileLine, coutLine, OFStream.putLine, OFStream.usable,
      append_empty_right, String.append_assoc]

/-! ## Shared lemmas about library formatting -/

theorem digitChar_plain : ∀ k, k < 10 → plainChar (Nat.digitChar k) = true := by
  decide

theorem toDigitsCore_plain (fuel : Nat) : ∀ (n : Nat) (acc : List Char),
    (∀ c ∈ acc, plainChar c = true) →
      ∀ c ∈ Nat.toDigitsCore 10 fuel n acc, plainChar c = true := by
  induction fuel with
  | zero =>
    intro n acc h
    simpa [Nat.toDigitsCore] using h
  | succ f ih =>
    intro n acc h
    have hcons : ∀ c ∈ Nat.digitChar (n % 10) :: acc, plainChar c = true := by
      intro c hc
      simp only [List.mem_cons] at hc
      rcases hc with rfl | hc
      · exact digitChar_plain _ (Nat.mod_lt _ (by decide))
      · exact h c hc
    simp only [Nat.toDigitsCore]
    split
    · exact hcons
    · exact ih _ _ hcons

theorem renderInt_plain (L : Int) : ∀ c ∈ (renderInt L).data, plainChar c = true := by
  have hnat : ∀ n : Nat, ∀ c ∈ Nat.toDigits 10 n, plainChar c = true := by
    intro n
    exact toDigitsCore_plain _ _ _ (by simp)
  cases L with
  | ofNat n => exact hnat n
  | negSucc n =>
    intro c hc
    simp only [renderInt, String.data_append, List.mem_append] at hc
    rcases hc with hc | hc
    · have hminus : c = '-' := by simpa using hc
      subst hminus
      decide
    · exact hnat _ c hc

theorem formatTime_plain (now : LocalTime) : ∀ c ∈ (formatTime now).data, plainChar c = true := by
  have hh : hour12 now.hour.val / 10 < 10 := by
    have := now.hour.isLt
    unfold hour12
    split <;> omega
  have hm : now.minute.val / 10 < 10 := by
    have := now.minute.isLt
    omega
  intro c hc
  simp only [formatTime, twoDigits, meridiem, String.data_append, List.mem_append,
    List.mem_cons, List.mem_singleton, List.not_mem_nil, or_false] at hc
  rcases hc with (((((rfl | rfl) | hc) | (rfl | rfl)) | hc) | hc)
  · exact digitChar_plain _ hh
  · exact digitChar_plain _ (Nat.mod_lt _ (by decide))
  · have hcolon : c = ':' := by simpa using hc
    subst hcolon
    decide
  · exact digitChar_plain _ hm
  · exact digitChar_plain _ (Nat.mod_lt _ (by decide))
  · have hblank : c = ' ' := by simpa using hc
    subst hblank
    decide
  · split at hc
    · have hAM : c = 'A' ∨ c = 'M' := by simpa using hc
      rcases hAM with rfl | rfl <;> decide
    · have hPM : c = 'P' ∨ c = 'M' := by simpa using hc
      rcases hPM with rfl | rfl <;> decide

theorem not_mem_of_plain (c : Char) (hc : plainChar c = false) (A : List Char)
    (hA : ∀ a ∈ A, plainChar a = true) : c ∉ A := by
  intro hmem
  have := hA c hmem
  rw [hc] at this
  exact Bool.noConfusion this

/-! ## Shared lemmas about lines -/

theorem noLF_append (a b : String) :
    LF ∉ (a ++ b).data ↔ LF ∉ a.data ∧ LF ∉ b.data := by
  simp [String.data_append, List.mem_append, not_or]

theorem isOneLine_of_noLF (r : String) (h : LF ∉ r.data) :
    isOneLine (r ++ String.singleton LF) = true := by
  have hcount : List.count LF r.data = 0 := List.count_eq_zero.mpr h
  simp [isOneLine, String.data_append, List.count_append, hcount]

theorem noLF_consoleRendering (S : Severity) (callSite : Option CallSite) (t M : String)
    (ht : LF ∉ t.data) (hM : LF ∉ M.data)
    (hF : ∀ cs, callSite = some cs → LF ∉ cs.filename.data) :
    LF ∉ (consoleRendering S callSite t M).data := by
  cases callSite with
  | none =>
    cases S <;>
      simp only [consoleRendering, logConsoleMessage, infoConsoleMessage, warnConsoleMessage,
        errorConsoleMessage, noLF_append] <;>
      exact ⟨⟨⟨⟨by decide, ht⟩, by decide⟩, hM⟩, by decide⟩
  | some cs =>
    have hF2 := hF cs rfl
    have hL : LF ∉ (renderInt cs.lineNumber).data :=
      not_mem_of_plain LF (by decide) _ (renderInt_plain _)
    cases S <;>
      simp only [consoleRendering, logAtConsoleMessage, infoAtConsoleMessage,
        warnAtConsoleMessage, errorAtConsoleMessage, noLF_append] <;>
      exact ⟨⟨⟨⟨⟨⟨⟨⟨by decide, ht⟩, by decide⟩, hF2⟩, by decide⟩, hL⟩, by decide⟩, hM⟩, by decide⟩

theorem noLF_fileRendering (S : Severity) (callSite : Option CallSite) (t M : String)
    (ht : LF ∉ t.data) (hM : LF ∉ M.data)
    (hF : ∀ cs, callSite = some cs → LF ∉ cs.filename.data) :
    LF ∉ (fileRendering S callSite t M).data := by
  cases callSite with
  | none =>
    cases S <;>
      simp only [fileRendering, logFileMessage, infoFileMessage, warnFileMessage,
        errorFileMessage, noLF_append] <;>
      exact ⟨⟨⟨by decide, ht⟩, by decide⟩, hM⟩
  | some cs =>
    have hF2 := hF cs rfl
    have hL : LF ∉ (renderInt cs.lineNumber).data :=
      not_mem_of_plain LF (by decide) _ (renderInt_plain _)
    cases S <;>
      simp only [fileRendering, logAtFileMessage, infoAtFileMessage, warnAtFileMessage,
        errorAtFileMessage, noLF_append] <;>
      exact ⟨⟨⟨⟨⟨⟨⟨by decide, ht⟩, by decide⟩, hF2⟩, by decide⟩, hL⟩, by decide⟩, hM⟩

/-! ## File rendering (C1, C2) -/

/-- C1: for every severity, message and time string, the file rendering built by the entry
points without call-site is `[t] [TAG] : M` with the tag INFO, WARNING or ERROR, and `[t] : M`
for the plain severity, which has no tag segment and no empty brackets. -/
theorem file_rendering_without_call_site (S : Severity) (t M : String) :
    fileRendering S none t M =
        (match tagText S with
          | some tag => "[" ++ t ++ "] [" ++ tag ++ "] : " ++ M
          | none => "[" ++ t ++ "] : " ++ M)
      ∧ tagText Severity.plain = none
      ∧ tagText Severity.info = some "INFO"
      ∧ tagText Severity.warning = some "WARNING"
      ∧ tagText Severity.error = some "ERROR" := by
  refine ⟨?_, rfl, rfl, rfl, rfl⟩
  cases S <;>
    simp [fileRendering, tagText, logFileMessage, infoFileMessage, warnFileMessage,
      errorFileMessage, String.append_assoc]

/-- C2: for every severity, message, file name, line number and time string, the file rendering
built by the entry points with call-site is `[t] [F:L] [TAG] : M`, and `[t] [F:L] : M` for the
plain severity, where `L` is the line number in decimal: the call-site segment follows the
timestamp and precedes the severity tag. -/
theorem file_rendering_with_call_site (S : Severity) (F : String) (L : Int) (t M : String) :
    fileRendering S (some (CallSite.mk F L)) t M =
        (match tagText S with
          | some tag => "[" ++ t ++ "] [" ++ F ++ ":" ++ renderInt L ++ "] [" ++ tag ++ "] : " ++ M
          | none => "[" ++ t ++ "] [" ++ F ++ ":" ++ renderInt L ++ "] : " ++ M)
      ∧ renderInt 42 = "42"
      ∧ renderInt 0 = "0"
      ∧ renderInt (-7) = "-7"
      ∧ renderInt 2147483647 = "2147483647"
      ∧ renderInt (-2147483648) = "-2147483648" := by
  refine ⟨?_, by decide, by decide, by decide, by decide, by decide⟩
  cases S <;>
    simp [fileRendering, tagText, logAtFileMessage, infoAtFileMessage, warnAtFileMessage,
      errorAtFileMessage, String.append_assoc]

/-! ## Assertions (C3, C4) -/

/-- C3 as stated fails: a failed assertion whose message holds a line feed puts two lines, not
one, on the console and in the open log file, and with the file sink compiled in but the stream
never opened the log file receives no line at all. -/
theorem assert_false_one_line_counterexample :
    (assert (Config.mk true true false "logs/") (LocalTime.mk 9 7) false "a\nb"
        (World.mk "" ["logs/"] ["logs/run.log"]
          (OFStream.mk true "logs/run.log" false ""))).logFile.contents
        = "[09:07 AM] [ERROR] : Assertion Failed - a\nb\n"
      ∧ List.count LF "[09:07 AM] [ERROR] : Assertion Failed - a\nb\n".data = 2
      ∧ isOneLine "[09:07 AM] [ERROR] : Assertion Failed - a\nb\n" = false
      ∧ isOneLine (assert (Config.mk true true false "logs/") (LocalTime.mk 9 7) false "a\nb"
          (World.mk "" ["logs/"] ["logs/run.log"]
            (OFStream.mk true "logs/run.log" false ""))).stdout = false
      ∧ (assert (Config.mk true true false "logs/") (LocalTime.mk 9 7) false "boom"
          World.empty).logFile.contents = ""
      ∧ (assertAt (Config.mk true true false "logs/") (LocalTime.mk 9 7) false 7 "main.cpp"
          "boom" World.empty).logFile.contents = "" := by
  decide

/-- C3, amended: for every message and optional call-site, a failed assertion does exactly what
the error entry point does on the message prefixed with `Assertion Failed - `, with the
call-site that was passed to the assertion: the console gains the error rendering of that
message and one line feed when the console sink is compiled in and nothing otherwise, and the
log file gains the error rendering and one line feed when the file sink is compiled in and its
stream accepts insertions and nothing otherwise. When neither the message nor the file name of
the call-site holds a line feed, each of the two texts is one line, ended by its only line
feed. -/
theorem assert_false_is_error (cfg : Config) (now : LocalTime) (callSite : Option CallSite)
    (L : Int) (F M : String) (w : World) :
    assertTrue cfg now false callSite M w
        = emit cfg now Severity.error callSite ("Assertion Failed - " ++ M) w
      ∧ assert cfg now false M w = error cfg now ("Assertion Failed - " ++ M) w
      ∧ assertAt cfg now false L F M w = errorAt cfg now L F ("Assertion Failed - " ++ M) w
      ∧ (assertTrue cfg now false callSite M w).stdout
        = w.stdout ++ (if cfg.enableConsole
            then consoleRendering Severity.error callSite (formatTime now)
              ("Assertion Failed - " ++ M) ++ String.singleton LF
            else "")
      ∧ (assertTrue cfg now false callSite M w).logFile.contents
        = w.logFile.contents ++ (if cfg.enableFile && w.logFile.usable
            then fileRendering Severity.error callSite (formatTime now)
              ("Assertion Failed - " ++ M) ++ String.singleton LF
            else "")
      ∧ (LF ∉ M.data → (∀ cs, callSite = some cs → LF ∉ cs.filename.data) →
          isOneLine (consoleRendering Severity.error callSite (formatTime now)
              ("Assertion Failed - " ++ M) ++ String.singleton LF) = true
            ∧ isOneLine (fileRendering Severity.error callSite (formatTime now)
              ("Assertion Failed - " ++ M) ++ String.singleton LF) = true) := by
  have h : assertTrue cfg now false callSite M w
      = emit cfg now Severity.error callSite ("Assertion Failed - " ++ M) w := by
    cases callSite <;> rfl
  refine ⟨h, rfl, rfl, ?_, ?_, ?_⟩
  · rw [h, emit_stdout]
    rfl
  · rw [h, emit_logFile_contents]
    rfl
  · intro hM hF
    have ht : LF ∉ (formatTime now).data :=
      not_mem_of_plain LF (by decide) _ (formatTime_plain now)
    have hbody : LF ∉ ("Assertion Failed - " ++ M).data :=
      (noLF_append _ _).mpr ⟨by decide, hM⟩
    exact ⟨isOneLine_of_noLF _ (noLF_consoleRendering _ callSite _ _ ht hbody hF),
      isOneLine_of_noLF _ (noLF_fileRendering _ callSite _ _ ht hbody hF)⟩

/-- A failed assertion with call-site and a message without line feed, on an open log file:
the error rendering and one line feed on each sink, one line each. -/
theorem assert_false_is_error_witness :
    (assertTrue (Config.mk true true false "logs/") (LocalTime.mk 9 7) false
        (some (CallSite.mk "main.cpp" 7)) "x > 0"
        (World.mk "" ["logs/"] ["logs/run.log"]
          (OFStream.mk true "logs/run.log" false ""))).logFile.contents
        = "" ++ (if (Config.mk true true false "logs/").enableFile
              && (OFStream.mk true "logs/run.log" false "").usable
            then fileRendering Severity.error (some (CallSite.mk "main.cpp" 7))
              (formatTime (LocalTime.mk 9 7)) ("Assertion Failed - " ++ "x > 0")
              ++ String.singleton LF
            else "")
      ∧ isOneLine (consoleRendering Severity.error (some (CallSite.mk "main.cpp" 7))
        (formatTime (LocalTime.mk 9 7)) ("Assertion Failed - " ++ "x > 0")
        ++ String.singleton LF) = true
      ∧ isOneLine (fileRendering Severity.error (some (CallSite.mk "main.cpp" 7))
        (formatTime (LocalTime.mk 9 7)) ("Assertion Failed - " ++ "x > 0")
        ++ String.singleton LF) = true :=
  (fun h => ⟨h.2.2.2.2.1, h.2.2.2.2.2 (by decide) (fun cs hcs => by
      cases hcs
      decide)⟩)
    (assert_false_is_error (Config.mk true true false "logs/") (LocalTime.mk 9 7)
      (some (CallSite.mk "main.cpp" 7)) 7 "main.cpp" "x > 0"
      (World.mk "" ["logs/"] ["logs/run.log"] (OFStream.mk true "logs/run.log" false "")))

/-- C4: for every message, call-site and configuration, an assertion that holds changes
nothing: the world after either overload of `assert` is the world before it, so neither the
console output nor the log file contents change. -/
theorem assert_true_is_noop (cfg : Config) (now : LocalTime) (L : Int) (F M : String)
    (w : World) :
    assert cfg now true M w = w ∧ assertAt cfg now true L F M w = w := by
  constructor <;> rfl

/-! ## The worked example (C7) -/

/-- C7: a warning with message `disk at 90%` and call-site `server.cpp`, line 42, made at 14:05
local time appends the line `[02:05 PM] [server.cpp:42] [WARNING] : disk at 90%` and a line feed
to the log file, when the file sink is compiled in and its stream accepts insertions; the
timestamp is the two digit hour of the twelve hour clock, a colon, the two digit minute, a blank
and AM or PM. -/
theorem warn_example_file_line (cfg : Config) (w : World) (hfile : cfg.enableFile = true)
    (husable : w.logFile.usable = true) :
    (warnAt cfg (LocalTime.mk 14 5) 42 "server.cpp" "disk at 90%" w).logFile.contents
        = w.logFile.contents ++ "[02:05 PM] [server.cpp:42] [WARNING] : disk at 90%\n"
      ∧ formatTime (LocalTime.mk 14 5) = "02:05 PM"
      ∧ formatTime (LocalTime.mk 0 5) = "12:05 AM"
      ∧ formatTime (LocalTime.mk 9 7) = "09:07 AM"
      ∧ formatTime (LocalTime.mk 12 0) = "12:00 PM"
      ∧ formatTime (LocalTime.mk 23 59) = "11:59 PM" := by
  refine ⟨?_, by decide, by decide, by decide, by decide, by decide⟩
  have h := emit_logFile_contents cfg (LocalTime.mk 14 5) Severity.warning
    (some (CallSite.mk "server.cpp" 42)) "disk at 90%" w
  have hr : fileOutput cfg w.logFile Severity.warning (some (CallSite.mk "server.cpp" 42))
      (formatTime (LocalTime.mk 14 5)) "disk at 90%"
      = "[02:05 PM] [server.cpp:42] [WARNING] : disk at 90%\n" := by
    simp only [fileOutput, hfile, husable, Bool.and_self, if_true]
    decide
  rw [hr] at h
  exact h

/-- The worked example on a world with both sinks compiled in and an open, empty log file. -/
theorem warn_example_file_line_witness :
    (warnAt (Config.mk true true false "logs/") (LocalTime.mk 14 5) 42 "server.cpp"
        "disk at 90%"
        (World.mk "" ["logs/"] ["logs/run.log"]
          (OFStream.mk true "logs/run.log" false ""))).logFile.contents
        = "" ++ "[02:05 PM] [server.cpp:42] [WARNING] : disk at 90%\n"
      ∧ formatTime (LocalTime.mk 14 5) = "02:05 PM"
      ∧ formatTime (LocalTime.mk 0 5) = "12:05 AM"
      ∧ formatTime (LocalTime.mk 9 7) = "09:07 AM"
      ∧ formatTime (LocalTime.mk 12 0) = "12:00 PM"
      ∧ formatTime (LocalTime.mk 23 59) = "11:59 PM" :=
  warn_example_file_line (Config.mk true true false "logs/")
    (World.mk "" ["logs/"] ["logs/run.log"] (OFStream.mk true "logs/run.log" false ""))
    rfl rfl

/-! ## Both sinks disabled (C9) -/

/-- C9: with the console sink and the file sink both compiled out, `init` returns normally and
leaves the world as it was (no directory is created and no file is opened), and every logging
call and every assertion, with or without call-site, leaves the world as it was. -/
theorem both_sinks_disabled (cfg : Config) (env : InitEnv) (now : LocalTime) (S : Severity)
    (callSite : Option CallSite) (condition : Bool) (M : String) (w : World)
    (hconsole : cfg.enableConsole = false) (hfile : cfg.enableFile = false) :
    init cfg env w = Except.ok w
      ∧ emit cfg now S callSite M w = w
      ∧ assertTrue cfg now condition callSite M w = w := by
  have hemit : ∀ (S : Severity) (M : String), emit cfg now S callSite M w = w := by
    intro S M
    rw [emit_unfold]
    simp [hconsole, hfile]
  refine ⟨by simp [init, hfile], hemit S M, ?_⟩
  cases condition
  · have h : assertTrue cfg now false callSite M w
        = emit cfg now Severity.error callSite ("Assertion Failed - " ++ M) w := by
      cases callSite <;> rfl
    rw [h]
    exact hemit _ _
  · cases callSite <;> rfl

/-- Both sinks compiled out: `init`, an error with call-site and a failing assertion leave the
empty world as it is. -/
theorem both_sinks_disabled_witness :
    init (Config.mk false false true "logs/") (InitEnv.mk "run.log" true true) World.empty
        = Except.ok World.empty
      ∧ emit (Config.mk false false true "logs/") (LocalTime.mk 9 30) Severity.error
          (some (CallSite.mk "main.cpp" 7)) "boom" World.empty = World.empty
      ∧ assertTrue (Config.mk false false true "logs/") (LocalTime.mk 9 30) false
          (some (CallSite.mk "main.cpp" 7)) "boom" World.empty = World.empty :=
  both_sinks_disabled (Config.mk false false true "logs/") (InitEnv.mk "run.log" true true)
    (LocalTime.mk 9 30) Severity.error (some (CallSite.mk "main.cpp" 7)) false "boom"
    World.empty rfl rfl

/-! ## Colour placement on the console (C8) -/

/-- C8: the console rendering of a call is the fixed opening, the timestamp text, the fixed end
of the timestamp segment, the call-site segment (empty without a call-site) and a remainder that
depends on the severity and the message alone. Two calls with the same severity and message
therefore differ in the timestamp text and the call-site segment only; once these are deleted,
what remains, with every colour code in its place, is the same string. -/
theorem console_colour_placement (S : Severity) (M : String) (t : String)
    (callSite : Option CallSite) :
    consoleRendering S callSite t M
      = consoleBeforeTime ++ t ++ consoleAfterTime ++ consoleCallSiteSegment callSite
        ++ consoleSeverityPart S M := by
  cases S <;> cases callSite <;>
    (apply String.ext
     simp only [consoleRendering, consoleBeforeTime, consoleAfterTime, consoleCallSiteSegment,
      consoleSeverityPart, logConsoleMessage, logAtConsoleMessage, infoConsoleMessage,
      infoAtConsoleMessage, warnConsoleMessage, warnAtConsoleMessage, errorConsoleMessage,
      errorAtConsoleMessage, String.data_append, List.append_assoc]
     rfl)

/-! ## Console against file (C5) -/

theorem stripGo_cons (p : Pending) (c : Char) (rest : List Char) :
    stripGo p (c :: rest) =
      if c = ESC then p.flush ++ stripGo Pending.esc rest
      else
        match p with
        | Pending.clear => c :: stripGo Pending.clear rest
        | Pending.esc =>
            if c = '[' then stripGo (Pending.params []) rest
            else ESC :: c :: stripGo Pending.clear rest
        | Pending.params ps =>
            if c = 'm' then stripGo Pending.clear rest
            else if isColourParam c then stripGo (Pending.params (ps ++ [c])) rest
            else ESC :: '[' :: (ps ++ c :: stripGo Pending.clear rest) := by
  cases p <;> rfl

/-- Stripping splits at an escape character: whatever is held back when it arrives is kept. -/
theorem stripGo_append_esc (X B : List Char) : ∀ p : Pending,
    stripGo p (X ++ ESC :: B) = stripGo p X ++ stripGo Pending.esc B := by
  induction X with
  | nil =>
    intro p
    simp [stripGo_cons, stripGo]
  | cons c X ih =>
    intro p
    rw [List.cons_append, stripGo_cons, stripGo_cons]
    by_cases hc : c = ESC
    · simp [hc, ih]
    · rw [if_neg hc, if_neg hc]
      cases p with
      | clear => simp [ih]
      | esc => by_cases h2 : c = '[' <;> simp [h2, ih]
      | params ps =>
        by_cases h2 : c = 'm'
        · simp [h2, ih]
        · by_cases h3 : isColourParam c = true <;> simp [h2, h3, ih]

/-- Stripping splits at a character that can neither continue nor complete a sequence. -/
theorem stripGo_append_break (c : Char) (hc : isBreak c = true) (X B : List Char) :
    ∀ p : Pending, stripGo p (X ++ c :: B) = stripGo p X ++ c :: stripGo Pending.clear B := by
  simp only [isBreak, Bool.and_eq_true, bne_iff_ne, ne_eq, Bool.not_eq_true'] at hc
  obtain ⟨⟨⟨h1, h2⟩, h3⟩, h4⟩ := hc
  induction X with
  | nil =>
    intro p
    rw [List.nil_append, stripGo_cons]
    cases p <;> simp [h1, h2, h3, h4, stripGo, Pending.flush]
  | cons d X ih =>
    intro p
    rw [List.cons_append, stripGo_cons, stripGo_cons]
    by_cases hd : d = ESC
    · simp [hd, ih]
    · rw [if_neg hd, if_neg hd]
      cases p with
      | clear => simp [ih]
      | esc => by_cases h5 : d = '[' <;> simp [h5, ih]
      | params ps =>
        by_cases h5 : d = 'm'
        · simp [h5, ih]
        · by_cases h6 : isColourParam d = true <;> simp [h5, h6, ih]

theorem stripGo_plain (A : List Char) (hA : ESC ∉ A) (Y : List Char) :
    stripGo Pending.clear (A ++ Y) = A ++ stripGo Pending.clear Y := by
  induction A with
  | nil => rfl
  | cons c A ih =>
    have hc : c ≠ ESC := fun h => hA (by simp [h])
    have hA2 : ESC ∉ A := fun h => hA (by simp [h])
    rw [List.cons_append, stripGo_cons]
    simp [hc, ih hA2]

theorem stripGo_self_of_plain (A : List Char) (hA : ∀ a ∈ A, plainChar a = true) :
    stripGo Pending.clear A = A := by
  have h := stripGo_plain A (not_mem_of_plain ESC (by decide) A hA) []
  simpa [stripGo, Pending.flush] using h

/-- A text without colour sequence, followed by an escape character, is kept whole. -/
theorem strip_var_esc (X B : List Char) (hX : stripGo Pending.clear X = X) :
    stripGo Pending.clear (X ++ ESC :: B) = X ++ stripGo Pending.clear (ESC :: B) := by
  rw [stripGo_append_esc, hX, stripGo_cons Pending.clear ESC B]
  simp [Pending.flush]

/-- A text without colour sequence, followed by a closing bracket or a colon and more text
without escape character, is kept whole. -/
theorem strip_var_break (X : List Char) (hX : stripGo Pending.clear X = X) (c : Char)
    (hc : isBreak c = true) (rest : List Char) (hrest : ESC ∉ rest) (Y : List Char) :
    stripGo Pending.clear (X ++ (c :: rest ++ Y))
      = X ++ (c :: rest ++ stripGo Pending.clear Y) := by
  rw [List.cons_append, stripGo_append_break c hc, hX, stripGo_plain rest hrest]
  rfl

/-- A text without colour sequence followed by a literal of the source that starts with an
escape character and strips to `plain`. -/
theorem strip_var_lit (X lit plain mid Y : List Char) (hX : stripGo Pending.clear X = X)
    (hhead : lit = ESC :: mid)
    (hlit : ∀ Z, stripGo Pending.clear (lit ++ Z) = plain ++ stripGo Pending.clear Z) :
    stripGo Pending.clear (X ++ (lit ++ Y)) = X ++ (plain ++ stripGo Pending.clear Y) := by
  have h := hlit Y
  subst hhead
  rw [List.cons_append] at h ⊢
  rw [strip_var_esc X _ hX, h]

/-- Console rendering without call-site, as a list of characters, stripped. -/
theorem strip_console_shape (t M lit plain mid : List Char)
    (ht : stripGo Pending.clear t = t) (hM : stripGo Pending.clear M = M)
    (hhead : lit = ESC :: mid)
    (hlit : ∀ Z, stripGo Pending.clear (lit ++ Z) = plain ++ stripGo Pending.clear Z) :
    stripGo Pending.clear
        ("\x1b[38;5;241m[\x1b[38;5;87m".data ++ (t ++ (lit ++ (M ++ "\x1b[0m".data))))
      = "[".data ++ (t ++ (plain ++ M)) := by
  have hstart : ∀ Z, stripGo Pending.clear ("\x1b[38;5;241m[\x1b[38;5;87m".data ++ Z)
      = "[".data ++ stripGo Pending.clear Z := fun _ => rfl
  have hend : stripGo Pending.clear (M ++ ("\x1b[0m".data ++ [])) = M ++ ([] ++ []) :=
    strip_var_lit M "\x1b[0m".data [] _ [] hM rfl (fun _ => rfl)
  simp only [List.append_nil] at hend
  rw [hstart, strip_var_lit t lit plain mid _ ht hhead hlit, hend]

/-- Console rendering with call-site, as a list of characters, stripped. -/
theorem strip_console_shape_at (t F L M lit plain mid : List Char)
    (ht : stripGo Pending.clear t = t) (hF : stripGo Pending.clear F = F)
    (hL : stripGo Pending.clear L = L) (hM : stripGo Pending.clear M = M)
    (hhead : lit = ESC :: mid)
    (hlit : ∀ Z, stripGo Pending.clear (lit ++ Z) = plain ++ stripGo Pending.clear Z) :
    stripGo Pending.clear
        ("\x1b[38;5;241m[\x1b[38;5;87m".data ++ (t
          ++ ("\x1b[38;5;241m] \x1b[38;5;241m[\x1b[38;5;85m".data ++ (F
          ++ ("\x1b[38;5;241m:\x1b[38;5;86m".data ++ (L
          ++ (lit ++ (M ++ "\x1b[0m".data))))))))
      = "[".data ++ (t ++ ("] [".data ++ (F ++ (":".data ++ (L ++ (plain ++ M)))))) := by
  have hstart : ∀ Z, stripGo Pending.clear ("\x1b[38;5;241m[\x1b[38;5;87m".data ++ Z)
      = "[".data ++ stripGo Pending.clear Z := fun _ => rfl
  have hend : stripGo Pending.clear (M ++ ("\x1b[0m".data ++ [])) = M ++ ([] ++ []) :=
    strip_var_lit M "\x1b[0m".data [] _ [] hM rfl (fun _ => rfl)
  simp only [List.append_nil] at hend
  rw [hstart,
    strip_var_lit t "\x1b[38;5;241m] \x1b[38;5;241m[\x1b[38;5;85m".data "] [".data _ _ ht rfl
      (fun _ => rfl),
    strip_var_lit F "\x1b[38;5;241m:\x1b[38;5;86m".data ":".data _ _ hF rfl (fun _ => rfl),
    strip_var_lit L lit plain mid _ hL hhead hlit, hend]

/-- File rendering without call-site, as a list of characters: stripping changes nothing. -/
theorem strip_file_shape (t M rest : List Char)
    (ht : stripGo Pending.clear t = t) (hM : stripGo Pending.clear M = M)
    (hrest : ESC ∉ rest) :
    stripGo Pending.clear ("[".data ++ (t ++ (']' :: rest ++ M)))
      = "[".data ++ (t ++ (']' :: rest ++ M)) := by
  rw [stripGo_plain "[".data (by decide), strip_var_break t ht ']' (by decide) rest hrest, hM]

/-- File rendering with call-site, as a list of characters: stripping changes nothing. -/
theorem strip_file_shape_at (t F L M rest : List Char)
    (ht : stripGo Pending.clear t = t) (hF : stripGo Pending.clear F = F)
    (hL : stripGo Pending.clear L = L) (hM : stripGo Pending.clear M = M)
    (hrest : ESC ∉ rest) :
    stripGo Pending.clear
        ("[".data ++ (t ++ ("] [".data ++ (F ++ (":".data ++ (L ++ (']' :: rest ++ M)))))))
      = "[".data ++ (t ++ ("] [".data ++ (F ++ (":".data ++ (L ++ (']' :: rest ++ M)))))) := by
  have h1 : stripGo Pending.clear
        (t ++ ("] [".data ++ (F ++ (":".data ++ (L ++ (']' :: rest ++ M))))))
      = t ++ ("] [".data
          ++ stripGo Pending.clear (F ++ (":".data ++ (L ++ (']' :: rest ++ M))))) :=
    strip_var_break t ht ']' (by decide) [' ', '['] (by decide) _
  have h2 : stripGo Pending.clear (F ++ (":".data ++ (L ++ (']' :: rest ++ M))))
      = F ++ (":".data ++ stripGo Pending.clear (L ++ (']' :: rest ++ M))) :=
    strip_var_break F hF ':' (by decide) [] (by decide) _
  have h3 := strip_var_break L hL ']' (by decide) rest hrest M
  rw [stripGo_plain "[".data (by decide), h1, h2, h3, hM]

theorem strip_file_lit (t M lit rest : List Char)
    (ht : stripGo Pending.clear t = t) (hM : stripGo Pending.clear M = M)
    (hlit : lit = ']' :: rest) (hrest : ESC ∉ rest) :
    stripGo Pending.clear ("[".data ++ (t ++ (lit ++ M))) = "[".data ++ (t ++ (lit ++ M)) := by
  subst hlit
  exact strip_file_shape t M rest ht hM hrest

theorem strip_file_lit_at (t F L M lit rest : List Char)
    (ht : stripGo Pending.clear t = t) (hF : stripGo Pending.clear F = F)
    (hL : stripGo Pending.clear L = L) (hM : stripGo Pending.clear M = M)
    (hlit : lit = ']' :: rest) (hrest : ESC ∉ rest) :
    stripGo Pending.clear
        ("[".data ++ (t ++ ("] [".data ++ (F ++ (":".data ++ (L ++ (lit ++ M)))))))
      = "[".data ++ (t ++ ("] [".data ++ (F ++ (":".data ++ (L ++ (lit ++ M)))))) := by
  subst hlit
  exact strip_file_shape_at t F L M rest ht hF hL hM hrest

/-- C5: for every severity, message, optional call-site and time of day, removing every colour
sequence from the console rendering gives exactly the file rendering, and the file rendering has
no colour sequence, provided the message and the file name of the call-site have no colour
sequence of their own. -/
theorem console_strips_to_file (S : Severity) (callSite : Option CallSite) (now : LocalTime)
    (M : String) (hM : stripColour M = M)
    (hF : ∀ cs, callSite = some cs → stripColour cs.filename = cs.filename) :
    stripColour (consoleRendering S callSite (formatTime now) M)
        = fileRendering S callSite (formatTime now) M
      ∧ stripColour (fileRendering S callSite (formatTime now) M)
        = fileRendering S callSite (formatTime now) M := by
  have ht : stripGo Pending.clear (formatTime now).data = (formatTime now).data :=
    stripGo_self_of_plain _ (formatTime_plain now)
  have hM2 : stripGo Pending.clear M.data = M.data := congrArg String.data hM
  cases callSite with
  | none =>
    constructor
    · cases S <;> apply String.ext <;>
        simp only [stripColour, consoleRendering, fileRendering, logConsoleMessage,
          logFileMessage, infoConsoleMessage, infoFileMessage, warnConsoleMessage,
          warnFileMessage, errorConsoleMessage, errorFileMessage, String.data_append,
          List.append_assoc] <;>
        exact strip_console_shape _ _ _ _ _ ht hM2 rfl (fun _ => rfl)
    · cases S <;> apply String.ext <;>
        simp only [stripColour, fileRendering, logFileMessage, infoFileMessage,
          warnFileMessage, errorFileMessage, String.data_append, List.append_assoc] <;>
        exact strip_file_lit _ _ _ _ ht hM2 rfl (by decide)
  | some cs =>
    have hF2 : stripGo Pending.clear cs.filename.data = cs.filename.data :=
      congrArg String.data (hF cs rfl)
    have hL : stripGo Pending.clear (renderInt cs.lineNumber).data
        = (renderInt cs.lineNumber).data :=
      stripGo_self_of_plain _ (renderInt_plain _)
    constructor
    · cases S <;> apply String.ext <;>
        simp only [stripColour, consoleRendering, fileRendering, logAtConsoleMessage,
          logAtFileMessage, infoAtConsoleMessage, infoAtFileMessage, warnAtConsoleMessage,
          warnAtFileMessage, errorAtConsoleMessage, errorAtFileMessage, String.data_append,
          List.append_assoc] <;>
        exact strip_console_shape_at _ _ _ _ _ _ _ ht hF2 hL hM2 rfl (fun _ => rfl)
    · cases S <;> apply String.ext <;>
        simp only [stripColour, fileRendering, logAtFileMessage, infoAtFileMessage,
          warnAtFileMessage, errorAtFileMessage, String.data_append, List.append_assoc] <;>
        exact strip_file_lit_at _ _ _ _ _ _ ht hF2 hL hM2 rfl (by decide)

/-- The warning of the worked example: its console rendering strips to its file rendering. -/
theorem console_strips_to_file_witness :
    stripColour (consoleRendering Severity.warning (some (CallSite.mk "server.cpp" 42))
        (formatTime (LocalTime.mk 14 5)) "disk at 90%")
        = fileRendering Severity.warning (some (CallSite.mk "server.cpp" 42))
          (formatTime (LocalTime.mk 14 5)) "disk at 90%"
      ∧ stripColour (fileRendering Severity.warning (some (CallSite.mk "server.cpp" 42))
          (formatTime (LocalTime.mk 14 5)) "disk at 90%")
        = fileRendering Severity.warning (some (CallSite.mk "server.cpp" 42))
          (formatTime (LocalTime.mk 14 5)) "disk at 90%" :=
  console_strips_to_file Severity.warning (some (CallSite.mk "server.cpp" 42))
    (LocalTime.mk 14 5) "disk at 90%" (by decide)
    (fun cs h => by
      cases h
      decide)

/-! ## One record per sink (C6) -/

/-- C6 as stated fails: a plain message holding a line feed, logged with both sinks compiled in
and the log file open, puts two lines on the console and two lines in the log file. -/
theorem message_with_line_feed_counterexample :
    (log (Config.mk true true false "logs/") (LocalTime.mk 14 5) "a\nb"
        (World.mk "" ["logs/"] ["logs/run.log"]
          (OFStream.mk true "logs/run.log" false ""))).logFile.contents
        = "[02:05 PM] : a\nb\n"
      ∧ isOneLine "[02:05 PM] : a\nb\n" = false
      ∧ List.count LF "[02:05 PM] : a\nb\n".data = 2
      ∧ isOneLine (log (Config.mk true true false "logs/") (LocalTime.mk 14 5) "a\nb"
          (World.mk "" ["logs/"] ["logs/run.log"]
            (OFStream.mk true "logs/run.log" false ""))).stdout = false := by
  decide

/-- C6, amended: for every severity, message and optional call-site, one call appends to the
console exactly its console rendering and one line feed when the console sink is compiled in,
and nothing otherwise; it appends to the log file exactly its file rendering and one line feed
when the file sink is compiled in and the stream accepts insertions, and nothing otherwise. When
neither the message nor the file name of the call-site holds a line feed, each of the two texts
is one line, ended by its only line feed. -/
theorem one_record_per_sink (cfg : Config) (now : LocalTime) (S : Severity)
    (callSite : Option CallSite) (M : String) (w : World) :
    (emit cfg now S callSite M w).stdout
        = w.stdout ++ (if cfg.enableConsole
            then consoleRendering S callSite (formatTime now) M ++ String.singleton LF
            else "")
      ∧ (emit cfg now S callSite M w).logFile.contents
        = w.logFile.contents ++ (if cfg.enableFile && w.logFile.usable
            then fileRendering S callSite (formatTime now) M ++ String.singleton LF
            else "")
      ∧ (LF ∉ M.data → (∀ cs, callSite = some cs → LF ∉ cs.filename.data) →
          isOneLine (consoleRendering S callSite (formatTime now) M ++ String.singleton LF)
              = true
            ∧ isOneLine (fileRendering S callSite (formatTime now) M ++ String.singleton LF)
              = true) := by
  have ht : LF ∉ (formatTime now).data :=
    not_mem_of_plain LF (by decide) _ (formatTime_plain now)
  refine ⟨?_, ?_, ?_⟩
  · rw [emit_stdout]
    rfl
  · rw [emit_logFile_contents]
    rfl
  · intro hM hF
    exact ⟨isOneLine_of_noLF _ (noLF_consoleRendering S callSite _ M ht hM hF),
      isOneLine_of_noLF _ (noLF_fileRendering S callSite _ M ht hM hF)⟩

/-- The warning of the worked example on an open log file: its rendering and one line feed on
each sink, one line each. -/
theorem one_record_per_sink_witness :
    (emit (Config.mk true true false "logs/") (LocalTime.mk 14 5) Severity.warning
        (some (CallSite.mk "server.cpp" 42)) "disk at 90%"
        (World.mk "" ["logs/"] ["logs/run.log"]
          (OFStream.mk true "logs/run.log" false ""))).stdout
        = "" ++ (if (Config.mk true true false "logs/").enableConsole
            then consoleRendering Severity.warning (some (CallSite.mk "server.cpp" 42))
              (formatTime (LocalTime.mk 14 5)) "disk at 90%" ++ String.singleton LF
            else "")
      ∧ (emit (Config.mk true true false "logs/") (LocalTime.mk 14 5) Severity.warning
          (some (CallSite.mk "server.cpp" 42)) "disk at 90%"
          (World.mk "" ["logs/"] ["logs/run.log"]
            (OFStream.mk true "logs/run.log" false ""))).logFile.contents
        = "" ++ (if (Config.mk true true false "logs/").enableFile
              && (OFStream.mk true "logs/run.log" false "").usable
            then fileRendering Severity.warning (some (CallSite.mk "server.cpp" 42))
              (formatTime (LocalTime.mk 14 5)) "disk at 90%" ++ String.singleton LF
            else "")
      ∧ isOneLine (consoleRendering Severity.warning (some (CallSite.mk "server.cpp" 42))
          (formatTime (LocalTime.mk 14 5)) "disk at 90%" ++ String.singleton LF) = true
      ∧ isOneLine (fileRendering Severity.warning (some (CallSite.mk "server.cpp" 42))
          (formatTime (LocalTime.mk 14 5)) "disk at 90%" ++ String.singleton LF) = true :=
  (fun h => ⟨h.1, h.2.1, h.2.2 (by decide) (fun cs hcs => by
      cases hcs
      decide)⟩)
    (one_record_per_sink (Config.mk true true false "logs/") (LocalTime.mk 14 5)
      Severity.warning (some (CallSite.mk "server.cpp" 42)) "disk at 90%"
      (World.mk "" ["logs/"] ["logs/run.log"] (OFStream.mk true "logs/run.log" false "")))

end BasicLogger
